import Mathlib

/-!
Verification development for the Travel-Assistant repository
(`src/travel_agent.py`), a Streamlit app that queries a flight-search
provider and a language-model provider and renders the results.

The Python functions are shallowly embedded as Lean definitions:
dictionaries from the provider response become structures with `Option`
fields (a missing key is `none`), Python's stable `sorted` becomes
`List.mergeSort` (also a stable sort), the `strptime`/`strftime` pair of
`format_datetime` is embedded as an explicit character-level parser and
renderer following CPython's documented parsing rules for the fixed
format `"%Y-%m-%d %H:%M"`, and the Streamlit display calls become an
explicit list of render items.
-/

namespace TravelAgent

/-- One airport dictionary inside a flight segment: only the `time` key is
read by the program (`departure_airport`/`arrival_airport`). -/
structure Airport where
  time : Option String
deriving DecidableEq

/-- One element of an offer's `"flights"` list. The program reads
`departure_airport` and `airline` of the first segment and
`arrival_airport` of the last segment. -/
structure Segment where
  departure_airport : Option Airport
  arrival_airport : Option Airport
  airline : Option String
deriving DecidableEq

/-- One flight offer from the provider's `"best_flights"` list; fields the
program reads, each optional because `dict.get` is used everywhere. -/
structure Offer where
  price : Option Int
  total_duration : Option Int
  flights : Option (List Segment)
deriving DecidableEq

/-- The provider response dictionary: the program only reads the
`"best_flights"` key (`data.get("best_flights", [])`). -/
structure ProviderResponse where
  best_flights : Option (List Offer)
deriving DecidableEq

/-- The sort key of `extract_cheapest_flights`:
`x.get("price", float("inf"))` — a missing price is positive infinity. -/
def priceKey (x : Offer) : WithTop Int :=
  match x.price with
  | some p => (p : WithTop Int)
  | none => ⊤

/-- The comparison used by the sort in `extract_cheapest_flights`:
ascending by `priceKey`. -/
def priceLe (x y : Offer) : Bool :=
  decide (priceKey x ≤ priceKey y)

/-- `extract_cheapest_flights(data)`: read `best_flights` with default
`[]`, stably sort ascending by price (missing price = +inf), take the
first 3.  Python's `sorted` is a stable sort, embedded as
`List.mergeSort`, which is also stable. -/
def extract_cheapest_flights (data : ProviderResponse) : List Offer :=
  ((data.best_flights.getD []).mergeSort priceLe).take 3

theorem priceLe_trans : ∀ a b c : Offer,
    priceLe a b = true → priceLe b c = true → priceLe a c = true := by
  intro a b c hab hbc
  simp only [priceLe, decide_eq_true_eq] at *
  exact le_trans hab hbc

theorem priceLe_total : ∀ a b : Offer, priceLe a b || priceLe b a := by
  intro a b
  simp only [priceLe, Bool.or_eq_true, decide_eq_true_eq]
  exact le_total _ _

/-- Any two offers with the same price compare `priceLe` both ways. -/
theorem priceLe_of_price_eq {a b : Offer} (h : a.price = b.price) :
    priceLe a b = true := by
  simp only [priceLe, decide_eq_true_eq, priceKey, h]
  exact le_refl _

/-- Stability of the sort used by `extract_cheapest_flights`: for every
price value (including the missing one), filtering the sorted list down
to the offers with that exact price gives the same list, in the same
order, as filtering the input.  Equal-price offers therefore retain
provider order. -/
theorem mergeSort_priceLe_filter_price (l : List Offer) (p : Option Int) :
    (l.mergeSort priceLe).filter (fun o => decide (o.price = p))
      = l.filter (fun o => decide (o.price = p)) := by
  set P : Offer → Bool := fun o => decide (o.price = p) with hP
  have hmemP : ∀ o ∈ l.filter P, o.price = p := by
    intro o ho
    have := List.of_mem_filter ho
    simpa [hP] using this
  have hpair : (l.filter P).Pairwise (fun a b => priceLe a b = true) := by
    apply List.pairwise_of_forall_mem_list
    intro a ha b hb
    exact priceLe_of_price_eq ((hmemP a ha).trans (hmemP b hb).symm)
  have hsub : List.Sublist (l.filter P) (l.mergeSort priceLe) :=
    List.sublist_mergeSort priceLe_trans priceLe_total hpair (List.filter_sublist l)
  have hsub2 : List.Sublist ((l.filter P).filter P)
      ((l.mergeSort priceLe).filter P) := hsub.filter P
  have hidem : (l.filter P).filter P = l.filter P := by
    rw [List.filter_filter]
    apply List.filter_congr
    intro a _
    simp
  rw [hidem] at hsub2
  have hperm : List.Perm ((l.mergeSort priceLe).filter P) (l.filter P) :=
    (List.mergeSort_perm l priceLe).filter P
  exact (hsub2.eq_of_length hperm.length_eq.symm).symm

/-- Convenience constructor for a priced offer with no other fields, as in
the spec's end-to-end scenario. -/
def mkOffer (p : Int) : Offer :=
  { price := some p, total_duration := none, flights := none }

/-- C1: `extract_cheapest_flights` returns the first 3 elements of the
candidate offer list stably sorted in ascending order of price: the
output is the 3-prefix of a sorted permutation of the candidate list, its
length is `min 3` the input length, a missing price sorts after every
priced offer (this is `priceLe`), equal prices retain provider order
(the filter equations), and every returned offer is priced at or below
every offer that was cut off. -/
theorem extract_cheapest_flights_spec (data : ProviderResponse) :
    extract_cheapest_flights data
        = ((data.best_flights.getD []).mergeSort priceLe).take 3
    ∧ (extract_cheapest_flights data).length
        = min 3 (data.best_flights.getD []).length
    ∧ List.Perm ((data.best_flights.getD []).mergeSort priceLe)
        (data.best_flights.getD [])
    ∧ ((data.best_flights.getD []).mergeSort priceLe).Pairwise
        (fun a b => priceLe a b = true)
    ∧ (∀ p : Option Int,
        ((data.best_flights.getD []).mergeSort priceLe).filter
            (fun o => decide (o.price = p))
          = (data.best_flights.getD []).filter (fun o => decide (o.price = p)))
    ∧ (∀ x ∈ extract_cheapest_flights data,
        ∀ y ∈ ((data.best_flights.getD []).mergeSort priceLe).drop 3,
          priceLe x y = true) := by
  set l : List Offer := data.best_flights.getD [] with hl
  refine ⟨rfl, ?_, List.mergeSort_perm l priceLe,
    List.sorted_mergeSort priceLe_trans priceLe_total l,
    fun p => mergeSort_priceLe_filter_price l p, ?_⟩
  · show ((l.mergeSort priceLe).take 3).length = min 3 l.length
    simp [List.length_take]
  · intro x hx y hy
    have hsorted : (l.mergeSort priceLe).Pairwise (fun a b => priceLe a b = true) :=
      List.sorted_mergeSort priceLe_trans priceLe_total l
    have hsplit : l.mergeSort priceLe
        = (l.mergeSort priceLe).take 3 ++ (l.mergeSort priceLe).drop 3 :=
      (List.take_append_drop 3 _).symm
    rw [hsplit, List.pairwise_append] at hsorted
    exact hsorted.2.2 x hx y hy

unseal List.merge List.mergeSort in
/-- Witness for C1 at the spec's end-to-end scenario: three offers priced
[12000, 9000, 15000] come back reordered [9000, 12000, 15000], and of
four offers only the three cheapest are returned. -/
theorem extract_cheapest_flights_spec_witness :
    extract_cheapest_flights ⟨some [mkOffer 12000, mkOffer 9000, mkOffer 15000]⟩
        = [mkOffer 9000, mkOffer 12000, mkOffer 15000]
    ∧ extract_cheapest_flights
          ⟨some [mkOffer 12000, mkOffer 9000, mkOffer 15000, mkOffer 8000]⟩
        = [mkOffer 8000, mkOffer 9000, mkOffer 12000] := by
  have h1 := extract_cheapest_flights_spec
    ⟨some [mkOffer 12000, mkOffer 9000, mkOffer 15000]⟩
  have h2 := extract_cheapest_flights_spec
    ⟨some [mkOffer 12000, mkOffer 9000, mkOffer 15000, mkOffer 8000]⟩
  exact ⟨h1.1.trans (by decide), h2.1.trans (by decide)⟩

/-- C9: every offer returned by `extract_cheapest_flights` is an element
of the input's candidate offer list, taken unmodified: the selector never
invents or alters offer records (and, being a pure function of its
argument, leaves the input response unchanged). -/
theorem extract_cheapest_flights_subset (data : ProviderResponse) :
    ∀ o ∈ extract_cheapest_flights data, o ∈ data.best_flights.getD [] := by
  intro o ho
  have h1 : o ∈ (data.best_flights.getD []).mergeSort priceLe :=
    List.take_subset 3 _ ho
  exact List.mem_mergeSort.mp h1

unseal List.merge List.mergeSort in
/-- Witness for C9 at a concrete response. -/
theorem extract_cheapest_flights_subset_witness :
    mkOffer 9000
      ∈ (ProviderResponse.mk
          (some [mkOffer 12000, mkOffer 9000, mkOffer 15000])).best_flights.getD [] := by
  apply extract_cheapest_flights_subset
    ⟨some [mkOffer 12000, mkOffer 9000, mkOffer 15000]⟩ (mkOffer 9000)
  decide

/-!
### `format_datetime`

The Python function is

```
def format_datetime(t):
    try:
        return datetime.strptime(t, "%Y-%m-%d %H:%M").strftime("%d %b %Y | %I:%M %p")
    except:
        return "N/A"
```

CPython's `strptime` compiles the format to a regular expression and
matches it against the start of the input, rejecting leftover characters:
`%Y` is exactly four digits, `%m` is `1[0-2]|0[1-9]|[1-9]`, `%d` is
`3[01]|[12]\d|0[1-9]|[1-9]| [1-9]`, `%H` is `2[0-3]|[0-1]\d|\d`, `%M` is
`[0-5]\d|\d`, and a whitespace character of the format matches one or
more whitespace characters.  The matched numbers are then passed to the
`datetime` constructor, which additionally requires `1 <= year` and
`day <= days in month`.  The alternations are embedded below as committed
choice, which agrees with the regex because whenever a longer alternative
matches, the shorter one leaves a character that the following literal
(`-`, whitespace, `:`, or end of input) can never match. -/

/-- Value of an ASCII digit character. -/
def charVal (c : Char) : Nat := c.toNat - 48

/-- `%Y`: exactly four digits. -/
def parse4 : List Char → Option (Nat × List Char)
  | c1 :: c2 :: c3 :: c4 :: rest =>
    if c1.isDigit ∧ c2.isDigit ∧ c3.isDigit ∧ c4.isDigit then
      some (1000 * charVal c1 + 100 * charVal c2 + 10 * charVal c3 + charVal c4, rest)
    else none
  | _ => none

/-- `%m`: `1[0-2]|0[1-9]|[1-9]`. -/
def parseMonth : List Char → Option (Nat × List Char)
  | c1 :: c2 :: rest =>
    if c1 = '1' ∧ ('0' ≤ c2 ∧ c2 ≤ '2') then some (10 + charVal c2, rest)
    else if c1 = '0' ∧ ('1' ≤ c2 ∧ c2 ≤ '9') then some (charVal c2, rest)
    else if '1' ≤ c1 ∧ c1 ≤ '9' then some (charVal c1, c2 :: rest)
    else none
  | [c1] => if '1' ≤ c1 ∧ c1 ≤ '9' then some (charVal c1, []) else none
  | [] => none

/-- `%d`: `3[01]|[12]\d|0[1-9]|[1-9]| [1-9]`. -/
def parseDay : List Char → Option (Nat × List Char)
  | c1 :: c2 :: rest =>
    if c1 = '3' ∧ ('0' ≤ c2 ∧ c2 ≤ '1') then some (30 + charVal c2, rest)
    else if ('1' ≤ c1 ∧ c1 ≤ '2') ∧ c2.isDigit then
      some (10 * charVal c1 + charVal c2, rest)
    else if c1 = '0' ∧ ('1' ≤ c2 ∧ c2 ≤ '9') then some (charVal c2, rest)
    else if '1' ≤ c1 ∧ c1 ≤ '9' then some (charVal c1, c2 :: rest)
    else if c1 = ' ' ∧ ('1' ≤ c2 ∧ c2 ≤ '9') then some (charVal c2, rest)
    else none
  | [c1] => if '1' ≤ c1 ∧ c1 ≤ '9' then some (charVal c1, []) else none
  | [] => none

/-- `%H`: `2[0-3]|[0-1]\d|\d`. -/
def parseHour : List Char → Option (Nat × List Char)
  | c1 :: c2 :: rest =>
    if c1 = '2' ∧ ('0' ≤ c2 ∧ c2 ≤ '3') then some (20 + charVal c2, rest)
    else if ('0' ≤ c1 ∧ c1 ≤ '1') ∧ c2.isDigit then
      some (10 * charVal c1 + charVal c2, rest)
    else if c1.isDigit then some (charVal c1, c2 :: rest)
    else none
  | [c1] => if c1.isDigit then some (charVal c1, []) else none
  | [] => none

/-- `%M`: `[0-5]\d|\d`. -/
def parseMinute : List Char → Option (Nat × List Char)
  | c1 :: c2 :: rest =>
    if ('0' ≤ c1 ∧ c1 ≤ '5') ∧ c2.isDigit then
      some (10 * charVal c1 + charVal c2, rest)
    else if c1.isDigit then some (charVal c1, c2 :: rest)
    else none
  | [c1] => if c1.isDigit then some (charVal c1, []) else none
  | [] => none

/-- The whitespace class matched by a whitespace character of the format
(`\s`, ASCII part). -/
def isPyWs (c : Char) : Bool :=
  c = ' ' || c = '\t' || c = '\n' || c = '\x0b' || c = '\x0c' || c = '\r'

/-- Whitespace in the format matches one or more whitespace characters. -/
def skipWs1 : List Char → Option (List Char)
  | c :: rest => if isPyWs c then some (rest.dropWhile isPyWs) else none
  | [] => none

/-- A literal character of the format. -/
def expectChar (c : Char) : List Char → Option (List Char)
  | x :: rest => if x = c then some rest else none
  | [] => none

/-- The full `strptime(t, "%Y-%m-%d %H:%M")` regular-expression phase,
rejecting unconverted leftover input. -/
def parseTimestamp (l : List Char) : Option (Nat × Nat × Nat × Nat × Nat) :=
  (parse4 l).bind fun yl =>
  (expectChar '-' yl.2).bind fun l2 =>
  (parseMonth l2).bind fun ml =>
  (expectChar '-' ml.2).bind fun l4 =>
  (parseDay l4).bind fun dl =>
  (skipWs1 dl.2).bind fun l6 =>
  (parseHour l6).bind fun hl =>
  (expectChar ':' hl.2).bind fun l8 =>
  (parseMinute l8).bind fun mil =>
  if mil.2 = [] then some (yl.1, ml.1, dl.1, hl.1, mil.1) else none

/-- Gregorian leap year, as in Python's `calendar`/`datetime`. -/
def isLeap (y : Nat) : Bool :=
  (y % 4 = 0 && y % 100 ≠ 0) || y % 400 = 0

/-- Days in a month, used by the `datetime` constructor's validation. -/
def daysInMonth (y m : Nat) : Nat :=
  if m = 2 then (if isLeap y then 29 else 28)
  else if m = 4 ∨ m = 6 ∨ m = 9 ∨ m = 11 then 30
  else 31

/-- Zero-padded two-digit decimal rendering (`%d`, `%I`, `%M`). -/
def pad2 (n : Nat) : String :=
  String.mk [Nat.digitChar (n / 10 % 10), Nat.digitChar (n % 10)]

/-- Zero-padded four-digit decimal rendering (`%Y`). -/
def pad4 (n : Nat) : String :=
  String.mk [Nat.digitChar (n / 1000 % 10), Nat.digitChar (n / 100 % 10),
    Nat.digitChar (n / 10 % 10), Nat.digitChar (n % 10)]

/-- `%Y` as rendered by `strftime` (glibc, C locale): the year as a plain
decimal number without leading zeros.  The years reachable from
`parseTimestamp` are ≤ 9999, for which this case split is exactly
unpadded decimal. -/
def yearStr (y : Nat) : String :=
  if y < 10 then String.mk [Nat.digitChar y]
  else if y < 100 then String.mk [Nat.digitChar (y / 10), Nat.digitChar (y % 10)]
  else if y < 1000 then
    String.mk [Nat.digitChar (y / 100), Nat.digitChar (y / 10 % 10),
      Nat.digitChar (y % 10)]
  else pad4 y

/-- `%b` in the C locale. -/
def monthAbbr : Nat → String
  | 1 => "Jan" | 2 => "Feb" | 3 => "Mar" | 4 => "Apr"
  | 5 => "May" | 6 => "Jun" | 7 => "Jul" | 8 => "Aug"
  | 9 => "Sep" | 10 => "Oct" | 11 => "Nov" | 12 => "Dec"
  | _ => ""

/-- `%I`: hour on a 12-hour clock. -/
def hour12 (h : Nat) : Nat :=
  if h % 12 = 0 then 12 else h % 12

/-- `strftime("%d %b %Y | %I:%M %p")` in the C locale. -/
def strftimeRender (y m d h mi : Nat) : String :=
  pad2 d ++ " " ++ monthAbbr m ++ " " ++ yearStr y ++ " | "
    ++ pad2 (hour12 h) ++ ":" ++ pad2 mi ++ " "
    ++ (if h < 12 then "AM" else "PM")

/-- `format_datetime(t)`: parse with `strptime`, validate the calendar
date as the `datetime` constructor does, render with `strftime`; any
failure yields `"N/A"`. -/
def format_datetime (t : String) : String :=
  match parseTimestamp t.data with
  | some (y, m, d, h, mi) =>
    if 1 ≤ y ∧ d ≤ daysInMonth y m then strftimeRender y m d h mi else "N/A"
  | none => "N/A"

/-- `strptime` acceptance: the timestamp strings on which
`datetime.strptime(t, "%Y-%m-%d %H:%M")` succeeds. -/
def strptimeOk (t : String) : Bool :=
  match parseTimestamp t.data with
  | some (y, m, d, _, _) => decide (1 ≤ y ∧ d ≤ daysInMonth y m)
  | none => false

/-- The strict shape `"YYYY-MM-DD HH:MM"` from the specification: four
digits, dash, two digits, dash, two digits, one space, two digits, colon,
two digits — nothing else.  This is the claim-side reading of "matching
the fixed format", used to compare against what the code accepts. -/
def matchesStrictFormat (s : String) : Bool :=
  match s.data with
  | [y1, y2, y3, y4, a1, m1, m2, a2, d1, d2, a3, h1, h2, a4, n1, n2] =>
    y1.isDigit && y2.isDigit && y3.isDigit && y4.isDigit
      && (a1 == '-') && m1.isDigit && m2.isDigit && (a2 == '-')
      && d1.isDigit && d2.isDigit && (a3 == ' ')
      && h1.isDigit && h2.isDigit && (a4 == ':') && n1.isDigit && n2.isDigit
  | _ => false

/-- The character list of a strict-format timestamp built from its five
numeric fields, zero-padded as `"YYYY-MM-DD HH:MM"` prescribes. -/
def tsChars (y m d h mi : Nat) : List Char :=
  (pad4 y).data ++ '-'
    :: ((pad2 m).data ++ '-'
    :: ((pad2 d).data ++ ' '
    :: ((pad2 h).data ++ ':'
    :: (pad2 mi).data)))

/-- The strict-format timestamp string for five numeric fields. -/
def tsString (y m d h mi : Nat) : String :=
  String.mk (tsChars y m d h mi)

theorem digitChar_isDigit {a : Nat} (h : a ≤ 9) :
    (Nat.digitChar a).isDigit = true := by
  interval_cases a <;> decide

theorem charVal_digitChar {a : Nat} (h : a ≤ 9) :
    charVal (Nat.digitChar a) = a := by
  interval_cases a <;> decide

theorem isPyWs_digitChar {a : Nat} (h : a ≤ 9) :
    isPyWs (Nat.digitChar a) = false := by
  interval_cases a <;> decide

theorem parse4_digits {a b c e : Nat} (ha : a ≤ 9) (hb : b ≤ 9) (hc : c ≤ 9)
    (he : e ≤ 9) (rest : List Char) :
    parse4 (Nat.digitChar a :: Nat.digitChar b :: Nat.digitChar c
        :: Nat.digitChar e :: rest)
      = some (1000 * a + 100 * b + 10 * c + e, rest) := by
  simp only [parse4]
  rw [if_pos ⟨digitChar_isDigit ha, digitChar_isDigit hb, digitChar_isDigit hc,
    digitChar_isDigit he⟩]
  rw [charVal_digitChar ha, charVal_digitChar hb, charVal_digitChar hc,
    charVal_digitChar he]

theorem parse4_pad4 {y : Nat} (hy : y ≤ 9999) (rest : List Char) :
    parse4 ((pad4 y).data ++ rest) = some (y, rest) := by
  have hshape : (pad4 y).data ++ rest
      = Nat.digitChar (y / 1000 % 10) :: Nat.digitChar (y / 100 % 10)
        :: Nat.digitChar (y / 10 % 10) :: Nat.digitChar (y % 10) :: rest := rfl
  have h1 : y / 1000 % 10 ≤ 9 := by omega
  have h2 : y / 100 % 10 ≤ 9 := by omega
  have h3 : y / 10 % 10 ≤ 9 := by omega
  have h4 : y % 10 ≤ 9 := by omega
  rw [hshape, parse4_digits h1 h2 h3 h4]
  have hval : 1000 * (y / 1000 % 10) + 100 * (y / 100 % 10)
      + 10 * (y / 10 % 10) + y % 10 = y := by omega
  rw [hval]

theorem parseMonth_pad2 {m : Nat} (h1 : 1 ≤ m) (h2 : m ≤ 12)
    (rest : List Char) :
    parseMonth ((pad2 m).data ++ rest) = some (m, rest) := by
  interval_cases m <;> rfl

theorem parseDay_pad2 {d : Nat} (h1 : 1 ≤ d) (h2 : d ≤ 31)
    (rest : List Char) :
    parseDay ((pad2 d).data ++ rest) = some (d, rest) := by
  interval_cases d <;> rfl

theorem parseHour_pad2 {h : Nat} (hh : h ≤ 23) (rest : List Char) :
    parseHour ((pad2 h).data ++ rest) = some (h, rest) := by
  interval_cases h <;> rfl

theorem parseMinute_pad2 {mi : Nat} (hmi : mi ≤ 59) (rest : List Char) :
    parseMinute ((pad2 mi).data ++ rest) = some (mi, rest) := by
  interval_cases mi <;> rfl

theorem skipWs1_space {c : Char} (hc : isPyWs c = false) (l : List Char) :
    skipWs1 (' ' :: c :: l) = some (c :: l) := by
  show (if isPyWs ' ' = true then some (List.dropWhile isPyWs (c :: l))
    else none) = some (c :: l)
  rw [if_pos (by decide)]
  rw [List.dropWhile_cons]
  simp [hc]

theorem expectChar_cons_self (c : Char) (l : List Char) :
    expectChar c (c :: l) = some l := by
  simp [expectChar]

/-- The `strptime` phase accepts every strictly formatted timestamp with
in-range fields and recovers exactly its five numeric fields. -/
theorem parseTimestamp_tsChars {y m d h mi : Nat} (hy : y ≤ 9999)
    (hm1 : 1 ≤ m) (hm2 : m ≤ 12) (hd1 : 1 ≤ d) (hd2 : d ≤ 31)
    (hh : h ≤ 23) (hmi : mi ≤ 59) :
    parseTimestamp (tsChars y m d h mi) = some (y, m, d, h, mi) := by
  have hws : isPyWs (Nat.digitChar (h / 10 % 10)) = false :=
    isPyWs_digitChar (by omega)
  have hhead : (pad2 h).data ++ ':' :: (pad2 mi).data
      = Nat.digitChar (h / 10 % 10)
        :: (Nat.digitChar (h % 10) :: ':' :: (pad2 mi).data) := rfl
  have hmin : parseMinute ((pad2 mi).data) = some (mi, []) := by
    have hx := parseMinute_pad2 hmi []
    rwa [List.append_nil] at hx
  unfold parseTimestamp tsChars
  rw [parse4_pad4 hy, Option.some_bind, expectChar_cons_self, Option.some_bind,
    parseMonth_pad2 hm1 hm2, Option.some_bind, expectChar_cons_self,
    Option.some_bind, parseDay_pad2 hd1 hd2, Option.some_bind]
  rw [hhead, skipWs1_space hws, Option.some_bind]
  rw [← hhead, parseHour_pad2 hh, Option.some_bind, expectChar_cons_self,
    Option.some_bind, hmin, Option.some_bind]
  simp

theorem daysInMonth_le31 (y m : Nat) : daysInMonth y m ≤ 31 := by
  unfold daysInMonth
  split_ifs <;> omega

theorem yearStr_eq_pad4 {y : Nat} (hy : 1000 ≤ y) : yearStr y = pad4 y := by
  unfold yearStr
  rw [if_neg (by omega), if_neg (by omega), if_neg (by omega)]

/-- C5 (amended): for every strictly formatted valid timestamp with a
four-digit year of at least 1000, `format_datetime` returns exactly the
rendering `"DD Mon YYYY | HH:MM AM/PM"` (zero-padded day, C-locale month
abbreviation, four-digit year, zero-padded 12-hour clock).  For years
below 1000 the year is rendered without leading zeros — see the
counterexample theorem. -/
theorem format_datetime_valid (y m d h mi : Nat)
    (hy1 : 1000 ≤ y) (hy2 : y ≤ 9999) (hm1 : 1 ≤ m) (hm2 : m ≤ 12)
    (hd1 : 1 ≤ d) (hd2 : d ≤ daysInMonth y m) (hh : h ≤ 23) (hmi : mi ≤ 59) :
    format_datetime (tsString y m d h mi)
      = pad2 d ++ " " ++ monthAbbr m ++ " " ++ pad4 y ++ " | "
        ++ pad2 (hour12 h) ++ ":" ++ pad2 mi ++ " "
        ++ (if h < 12 then "AM" else "PM") := by
  have hd31 : d ≤ 31 := le_trans hd2 (daysInMonth_le31 y m)
  unfold format_datetime tsString
  rw [show (String.mk (tsChars y m d h mi)).data = tsChars y m d h mi from rfl]
  rw [parseTimestamp_tsChars hy2 hm1 hm2 hd1 hd31 hh hmi]
  show (if 1 ≤ y ∧ d ≤ daysInMonth y m then strftimeRender y m d h mi
    else "N/A") = _
  rw [if_pos ⟨by omega, hd2⟩]
  unfold strftimeRender
  rw [yearStr_eq_pad4 hy1]

/-- Witness for C5 at the spec's example: `"2025-03-10 14:30"` maps to
`"10 Mar 2025 | 02:30 PM"`. -/
theorem format_datetime_valid_witness :
    format_datetime "2025-03-10 14:30" = "10 Mar 2025 | 02:30 PM" := by
  have h := format_datetime_valid 2025 3 10 14 30 (by omega) (by omega)
    (by omega) (by omega) (by omega) (by decide) (by omega) (by omega)
  have he : tsString 2025 3 10 14 30 = "2025-03-10 14:30" := by decide
  rw [he] at h
  rw [h]
  decide

/-- Counterexample to C5 as stated: `"0500-03-10 14:30"` is a valid
strict-format timestamp, but the code renders its year without leading
zeros (`"10 Mar 500 | 02:30 PM"`), which differs from the fixed pattern
`"DD Mon YYYY | HH:MM AM/PM"` (`"10 Mar 0500 | 02:30 PM"`). -/
theorem format_datetime_small_year_counterexample :
    matchesStrictFormat "0500-03-10 14:30" = true
    ∧ strptimeOk "0500-03-10 14:30" = true
    ∧ format_datetime "0500-03-10 14:30" = "10 Mar 500 | 02:30 PM"
    ∧ pad2 10 ++ " " ++ monthAbbr 3 ++ " " ++ pad4 500 ++ " | "
        ++ pad2 (hour12 14) ++ ":" ++ pad2 30 ++ " "
        ++ (if (14 : Nat) < 12 then "AM" else "PM")
        = "10 Mar 0500 | 02:30 PM"
    ∧ format_datetime "0500-03-10 14:30" ≠ "10 Mar 0500 | 02:30 PM" := by
  refine ⟨by decide, by decide, by decide, by decide, by decide⟩

theorem length_mk (l : List Char) : (String.mk l).length = l.length := rfl

theorem pad2_length (n : Nat) : (pad2 n).length = 2 := rfl

theorem yearStr_length_pos (y : Nat) : 1 ≤ (yearStr y).length := by
  unfold yearStr
  split_ifs <;> simp [pad4, length_mk]

/-- A successful render is never the placeholder: it is at least 16
characters long while `"N/A"` has 3. -/
theorem strftimeRender_ne_na (y m d h mi : Nat) :
    strftimeRender y m d h mi ≠ "N/A" := by
  intro hcontra
  have hlen := congrArg String.length hcontra
  unfold strftimeRender at hlen
  have hAMPM : (if h < 12 then "AM" else "PM").length = 2 := by
    split_ifs <;> rfl
  simp only [String.length_append, pad2_length, hAMPM,
    show (" " : String).length = 1 from rfl,
    show (" | " : String).length = 3 from rfl,
    show (":" : String).length = 1 from rfl,
    show ("N/A" : String).length = 3 from rfl] at hlen
  have hy := yearStr_length_pos y
  omega

/-- C4 (amended): `format_datetime` is total by construction and returns
the placeholder `"N/A"` exactly when `strptime` parsing or `datetime`
validation fails; in particular every rejected string (the empty string
among them) yields `"N/A"`, and the accepted set is that of
`strptime("%Y-%m-%d %H:%M")`, which is slightly wider than the strict
`"YYYY-MM-DD HH:MM"` shape. -/
theorem format_datetime_na_iff (t : String) :
    format_datetime t = "N/A" ↔ strptimeOk t = false := by
  unfold format_datetime strptimeOk
  cases hp : parseTimestamp t.data with
  | none => simp
  | some q =>
    obtain ⟨y, m, d, h, mi⟩ := q
    show (if 1 ≤ y ∧ d ≤ daysInMonth y m then strftimeRender y m d h mi
        else "N/A") = "N/A"
      ↔ decide (1 ≤ y ∧ d ≤ daysInMonth y m) = false
    by_cases hv : 1 ≤ y ∧ d ≤ daysInMonth y m
    · rw [if_pos hv]
      simp [hv, strftimeRender_ne_na]
    · rw [if_neg hv]
      simp [hv]

/-- Witness for C4 at the empty string, via the amended theorem. -/
theorem format_datetime_na_iff_witness : format_datetime "" = "N/A" := by
  have h := format_datetime_na_iff ""
  exact h.mpr (by decide)

/-- Counterexample to C4 as stated: `"2025-3-10 14:30"` does not match
the fixed format `"YYYY-MM-DD HH:MM"` (its month is a single digit), yet
the formatter does not return `"N/A"`: CPython's `strptime` accepts
unpadded fields. -/
theorem format_datetime_lenient_counterexample :
    matchesStrictFormat "2025-3-10 14:30" = false
    ∧ format_datetime "2025-3-10 14:30" = "10 Mar 2025 | 02:30 PM"
    ∧ format_datetime "2025-3-10 14:30" ≠ "N/A" := by
  refine ⟨by decide, by decide, by decide⟩

/-!
### Booking link, flight query payload, display block, script trace
-/

/-- `build_google_flights_link(source, destination, departure_date,
return_date)`: three adjacent f-string pieces concatenated. -/
def build_google_flights_link (source destination departure_date
    return_date : String) : String :=
  "https://www.google.com/travel/flights?"
    ++ ("q=Flights%20from%20" ++ source ++ "%20to%20" ++ destination)
    ++ ("%20on%20" ++ departure_date ++ "%20returning%20" ++ return_date)

/-- The provider request payload built by `fetch_flights`. -/
structure FlightParams where
  engine : String
  departure_id : String
  arrival_id : String
  outbound_date : String
  return_date : String
  currency : String
  hl : String
  api_key : String
deriving DecidableEq

/-- The `params` dictionary of `fetch_flights`, for arbitrary user input
(the two dates already passed through `str`). -/
def fetch_flights_params (source destination departure_date return_date
    api_key : String) : FlightParams :=
  { engine := "google_flights"
    departure_id := source
    arrival_id := destination
    outbound_date := departure_date
    return_date := return_date
    currency := "INR"
    hl := "en"
    api_key := api_key }

/-- One Streamlit output call of the plan display, with every
data-dependent argument it receives. -/
inductive RenderItem where
  | subheader (s : String)
  | warningMsg (s : String)
  | flightCard (airline dep_time arr_time duration price booking_link : String)
  | textBlock (s : String)
  | successMsg (s : String)
deriving DecidableEq

/-- The empty dictionary default of
`flights_info[0].get("departure_airport", {})`. -/
def defaultAirport : Airport := { time := none }

/-- The body of the per-offer loop of the display block: an offer with a
missing or empty `"flights"` list yields the warning and `continue`;
otherwise one card is built from the first segment's departure airport
and airline, the last segment's arrival airport, and the offer's price
and duration. -/
def renderCard (source destination departure_date return_date : String)
    (flight : Offer) : List RenderItem :=
  match flight.flights.getD [] with
  | [] => [RenderItem.warningMsg "Flight details unavailable"]
  | seg :: segs =>
    let departure := (seg.departure_airport).getD defaultAirport
    let arrival := ((segs.getLastD seg).arrival_airport).getD defaultAirport
    let airline := (seg.airline).getD "Unknown Airline"
    let price := match flight.price with
      | some p => toString p
      | none => "N/A"
    let duration := match flight.total_duration with
      | some v => toString v
      | none => "N/A"
    let dep_time := format_datetime ((departure.time).getD "")
    let arr_time := format_datetime ((arrival.time).getD "")
    let booking_link :=
      build_google_flights_link source destination departure_date return_date
    [RenderItem.flightCard airline dep_time arr_time duration price
      booking_link]

/-- The fixed suffix of the display block: hotels and itinerary sections
and the success message. -/
def tailItems (hotels itinerary : String) : List RenderItem :=
  [RenderItem.subheader "🏨 Hotels & Restaurants",
   RenderItem.textBlock hotels,
   RenderItem.subheader "🗺️ Personalized Itinerary",
   RenderItem.textBlock itinerary,
   RenderItem.successMsg "✅ Travel plan generated successfully!"]

/-- The display section of the generate-plan block (source lines
137-202): flights header, then either one card (or unavailable-warning)
per selected offer, or the explicit no-flights warning for an empty
selection, then the hotels and itinerary sections and the success
message. -/
def displayPlan (cheapest_flights : List Offer) (hotels itinerary : String)
    (source destination departure_date return_date : String) :
    List RenderItem :=
  RenderItem.subheader "✈️ Cheapest Flights"
    :: (if cheapest_flights.isEmpty then
          [RenderItem.warningMsg "⚠️ No flights found"]
        else
          cheapest_flights.flatMap
            (renderCard source destination departure_date return_date))
    ++ tailItems hotels itinerary

set_option linter.unusedVariables false in
/-- The whole generate-plan block as a function of the external call
results: the flight response and the three language-model texts, in the
order they are produced (`research`, `hotels`, `itinerary`).  The display
uses the selected flights, `hotels` and `itinerary`; `research` is bound
by the orchestration but never rendered. -/
def generatePlanRender (flight_data : ProviderResponse)
    (research hotels itinerary : String)
    (source destination departure_date return_date : String) :
    List RenderItem :=
  displayPlan (extract_cheapest_flights flight_data) hotels itinerary
    source destination departure_date return_date

/-- Python truthiness of an optional credential string
(`not SERPAPI_KEY`): `None` and the empty string are falsy. -/
def truthy : Option String → Bool
  | none => false
  | some s => !s.isEmpty

/-- An observable effect of one script run. -/
inductive Effect where
  | uiError (msg : String)
  | networkCall (endpoint : String)
  | render (item : RenderItem)
deriving DecidableEq

/-- Top-level control flow of the script: the credential check at lines
12-17 runs first and `st.stop()` ends the run with only the error
message; otherwise, if the generate button is pressed, the flight-search
request and the three language-model requests are issued in order and the
results displayed.  The external call results are oracle parameters. -/
def scriptTrace (serpapi_key openrouter_api_key : Option String)
    (pressed : Bool) (flight_data : ProviderResponse)
    (research hotels itinerary : String)
    (source destination departure_date return_date : String) :
    List Effect :=
  if !truthy serpapi_key || !truthy openrouter_api_key then
    [Effect.uiError "❌ API keys missing in .env file"]
  else if pressed then
    Effect.networkCall "serpapi"
      :: Effect.networkCall "openrouter"
      :: Effect.networkCall "openrouter"
      :: Effect.networkCall "openrouter"
      :: (generatePlanRender flight_data research hotels itinerary
          source destination departure_date return_date).map Effect.render
  else []

/-- C6: the booking-link builder is pure string interpolation of origin,
destination and the two dates into the fixed URL template, with no
escaping of any input character; at the spec's example inputs it returns
exactly the literal URL. -/
theorem build_google_flights_link_spec :
    (∀ source destination departure_date return_date : String,
      build_google_flights_link source destination departure_date return_date
        = "https://www.google.com/travel/flights?q=Flights%20from%20"
          ++ source ++ "%20to%20" ++ destination ++ "%20on%20"
          ++ departure_date ++ "%20returning%20" ++ return_date)
    ∧ build_google_flights_link "BOM" "DEL" "2025-03-10" "2025-03-15"
        = "https://www.google.com/travel/flights?q=Flights%20from%20BOM%20to%20DEL%20on%202025-03-10%20returning%202025-03-15" := by
  refine ⟨?_, by decide⟩
  intro source destination departure_date return_date
  apply String.ext
  simp only [build_google_flights_link, String.data_append, List.append_assoc]
  rw [← List.append_assoc,
    show ("https://www.google.com/travel/flights?" : String).data
        ++ ("q=Flights%20from%20" : String).data
      = ("https://www.google.com/travel/flights?q=Flights%20from%20" : String).data
      from by decide]

/-- Witness for C6 (the general part applied at the example inputs). -/
theorem build_google_flights_link_spec_witness :
    build_google_flights_link "BOM" "DEL" "2025-03-10" "2025-03-15"
      = "https://www.google.com/travel/flights?q=Flights%20from%20"
        ++ "BOM" ++ "%20to%20" ++ "DEL" ++ "%20on%20"
        ++ "2025-03-10" ++ "%20returning%20" ++ "2025-03-15" :=
  build_google_flights_link_spec.1 "BOM" "DEL" "2025-03-10" "2025-03-15"

/-- C8: for every origin, destination and date pair, the provider request
payload holds exactly the eight fields of the source dictionary —
`engine="google_flights"`, the origin as `departure_id`, the destination
as `arrival_id`, the two date strings, `currency="INR"`, `hl="en"`, and
the API key — with no validation of any input. -/
theorem fetch_flights_params_spec
    (source destination departure_date return_date api_key : String) :
    (fetch_flights_params source destination departure_date return_date
        api_key).engine = "google_flights"
    ∧ (fetch_flights_params source destination departure_date return_date
        api_key).departure_id = source
    ∧ (fetch_flights_params source destination departure_date return_date
        api_key).arrival_id = destination
    ∧ (fetch_flights_params source destination departure_date return_date
        api_key).outbound_date = departure_date
    ∧ (fetch_flights_params source destination departure_date return_date
        api_key).return_date = return_date
    ∧ (fetch_flights_params source destination departure_date return_date
        api_key).currency = "INR"
    ∧ (fetch_flights_params source destination departure_date return_date
        api_key).hl = "en"
    ∧ (fetch_flights_params source destination departure_date return_date
        api_key).api_key = api_key :=
  ⟨rfl, rfl, rfl, rfl, rfl, rfl, rfl, rfl⟩

/-- Witness for C8 at concrete inputs. -/
theorem fetch_flights_params_spec_witness :
    (fetch_flights_params "BOM" "DEL" "2025-03-10" "2025-03-15" "k").engine
      = "google_flights" :=
  (fetch_flights_params_spec "BOM" "DEL" "2025-03-10" "2025-03-15" "k").1

unseal List.merge List.mergeSort in
/-- C2 fails on the code: the display block renders the flight list, the
lodging text and the itinerary text, but the research text — although
computed by the orchestration — never appears in the rendered output.
The first conjunct shows the rendered output does not depend on the
research text at all; the rest evaluates one concrete run. -/
theorem research_not_rendered :
    (∀ (flight_data : ProviderResponse)
        (research research2 hotels itinerary source destination
          departure_date return_date : String),
      generatePlanRender flight_data research hotels itinerary
          source destination departure_date return_date
        = generatePlanRender flight_data research2 hotels itinerary
          source destination departure_date return_date)
    ∧ RenderItem.textBlock "RESEARCH_TEXT"
        ∉ generatePlanRender ⟨some []⟩ "RESEARCH_TEXT" "HOTELS_TEXT"
          "ITINERARY_TEXT" "BOM" "DEL" "2025-03-10" "2025-03-15"
    ∧ RenderItem.textBlock "HOTELS_TEXT"
        ∈ generatePlanRender ⟨some []⟩ "RESEARCH_TEXT" "HOTELS_TEXT"
          "ITINERARY_TEXT" "BOM" "DEL" "2025-03-10" "2025-03-15"
    ∧ RenderItem.textBlock "ITINERARY_TEXT"
        ∈ generatePlanRender ⟨some []⟩ "RESEARCH_TEXT" "HOTELS_TEXT"
          "ITINERARY_TEXT" "BOM" "DEL" "2025-03-10" "2025-03-15" :=
  ⟨fun _ _ _ _ _ _ _ _ _ => rfl, by decide, by decide, by decide⟩

/-- C3: an empty or absent `best_flights` list makes the selector return
the empty list, and the display then contains the explicit
"No flights found" warning. -/
theorem no_flights_found (data : ProviderResponse)
    (hotels itinerary source destination departure_date return_date : String)
    (hempty : data.best_flights = none ∨ data.best_flights = some []) :
    extract_cheapest_flights data = []
    ∧ RenderItem.warningMsg "⚠️ No flights found"
        ∈ displayPlan (extract_cheapest_flights data) hotels itinerary
          source destination departure_date return_date := by
  have hl : data.best_flights.getD [] = [] := by
    rcases hempty with h | h <;> rw [h] <;> rfl
  have hex : extract_cheapest_flights data = [] := by
    unfold extract_cheapest_flights
    rw [hl]
    simp
  refine ⟨hex, ?_⟩
  rw [hex]
  simp [displayPlan, tailItems]

/-- Witness for C3 at an absent offer list. -/
theorem no_flights_found_witness :
    extract_cheapest_flights ⟨none⟩ = []
    ∧ RenderItem.warningMsg "⚠️ No flights found"
        ∈ displayPlan (extract_cheapest_flights ⟨none⟩) "H" "I" "BOM" "DEL"
          "2025-03-10" "2025-03-15" :=
  no_flights_found ⟨none⟩ "H" "I" "BOM" "DEL" "2025-03-10" "2025-03-15"
    (Or.inl rfl)

/-- C7: if either API key is absent, the run stops at the startup check
with only the error message: no flight-search or language-model request
is ever issued, whatever the button state or the would-be responses. -/
theorem missing_key_halts (serpapi_key openrouter_api_key : Option String)
    (pressed : Bool) (flight_data : ProviderResponse)
    (research hotels itinerary source destination departure_date
      return_date : String)
    (hmissing : serpapi_key = none ∨ openrouter_api_key = none) :
    scriptTrace serpapi_key openrouter_api_key pressed flight_data research
        hotels itinerary source destination departure_date return_date
      = [Effect.uiError "❌ API keys missing in .env file"]
    ∧ ∀ e ∈ scriptTrace serpapi_key openrouter_api_key pressed flight_data
          research hotels itinerary source destination departure_date
          return_date,
        ∀ endpoint, e ≠ Effect.networkCall endpoint := by
  have hcond : (!truthy serpapi_key || !truthy openrouter_api_key) = true := by
    rcases hmissing with h | h <;> rw [h] <;> simp [truthy]
  have htr : scriptTrace serpapi_key openrouter_api_key pressed flight_data
      research hotels itinerary source destination departure_date return_date
      = [Effect.uiError "❌ API keys missing in .env file"] := by
    unfold scriptTrace
    rw [hcond]
    rfl
  refine ⟨htr, ?_⟩
  intro e he endpoint
  rw [htr] at he
  simp only [List.mem_singleton] at he
  subst he
  intro hcontra
  exact Effect.noConfusion hcontra

/-- Witness for C7 with the flight-search key absent. -/
theorem missing_key_halts_witness :
    scriptTrace none (some "k") true ⟨none⟩ "R" "H" "I" "BOM" "DEL"
        "2025-03-10" "2025-03-15"
      = [Effect.uiError "❌ API keys missing in .env file"] :=
  (missing_key_halts none (some "k") true ⟨none⟩ "R" "H" "I" "BOM" "DEL"
    "2025-03-10" "2025-03-15" (Or.inl rfl)).1

/-- C10: an offer whose segment list is missing or empty renders as the
"Flight details unavailable" warning, and the loop continues: offers
before and after it still render their own cards, with no out-of-bounds
access (the embedding is total). -/
theorem missing_segments_warning (pre post : List Offer) (o : Offer)
    (hotels itinerary source destination departure_date return_date : String)
    (hseg : o.flights = none ∨ o.flights = some []) :
    displayPlan (pre ++ o :: post) hotels itinerary source destination
        departure_date return_date
      = RenderItem.subheader "✈️ Cheapest Flights"
        :: (pre.flatMap
              (renderCard source destination departure_date return_date)
            ++ RenderItem.warningMsg "Flight details unavailable"
            :: post.flatMap
              (renderCard source destination departure_date return_date))
        ++ tailItems hotels itinerary := by
  have hcard : renderCard source destination departure_date return_date o
      = [RenderItem.warningMsg "Flight details unavailable"] := by
    unfold renderCard
    rcases hseg with h | h <;> rw [h] <;> rfl
  unfold displayPlan
  rw [if_neg (by simp)]
  rw [List.flatMap_append, List.flatMap_cons, hcard]
  rfl

/-- An intact two-segment offer used to exercise the display. -/
def exampleOfferOk : Offer :=
  { price := some 9000
    total_duration := some 210
    flights := some
      [{ departure_airport := some { time := some "2025-03-10 14:30" }
         arrival_airport := some { time := some "2025-03-10 16:00" }
         airline := some "IndiGo" },
       { departure_airport := some { time := some "2025-03-10 17:00" }
         arrival_airport := some { time := some "2025-03-10 18:00" }
         airline := some "Air India" }] }

/-- An offer whose `"flights"` list is empty. -/
def exampleOfferNoSegs : Offer :=
  { price := some 100, total_duration := none, flights := some [] }

/-- Witness for C10: the damaged offer yields the warning while the
following intact offer still renders its card (built from its first
segment's airline and departure time and its last segment's arrival
time). -/
theorem missing_segments_warning_witness :
    displayPlan [exampleOfferNoSegs, exampleOfferOk] "H" "I" "BOM" "DEL"
        "2025-03-10" "2025-03-15"
      = [RenderItem.subheader "✈️ Cheapest Flights",
         RenderItem.warningMsg "Flight details unavailable",
         RenderItem.flightCard "IndiGo" "10 Mar 2025 | 02:30 PM"
           "10 Mar 2025 | 06:00 PM" "210" "9000"
           (build_google_flights_link "BOM" "DEL" "2025-03-10" "2025-03-15"),
         RenderItem.subheader "🏨 Hotels & Restaurants",
         RenderItem.textBlock "H",
         RenderItem.subheader "🗺️ Personalized Itinerary",
         RenderItem.textBlock "I",
         RenderItem.successMsg "✅ Travel plan generated successfully!"] :=
  (missing_segments_warning [] [exampleOfferOk] exampleOfferNoSegs "H" "I"
    "BOM" "DEL" "2025-03-10" "2025-03-15" (Or.inr rfl)).trans (by decide)

end TravelAgent
